import Mathlib

set_option linter.unusedVariables false
set_option maxRecDepth 100000

/-! # Varlet MCP server: versioned metadata cache, fetch fallback and API tools

Shallow embedding of `src/utils/api.ts` (the `cacheApi` cache/fetch pipeline)
and of the tool handlers in `src/tools/api.ts` (component lookup over the
cached web-types JSON).  File-system reads/writes and the npm-registry fetch
are modelled by explicit state passing (`CacheState`) and an environment
(`FetchEnv`) fixing the outcome of the external calls; the documents travel
as JSON strings exactly as in the source, where `cacheApi` returns a `string`
that callers feed to `JSON.parse`. -/

/-- JSON values, the result type of `JSON.parse`.  A number keeps its lexeme:
the repository's documents contain no numbers, so no numeric semantics is
needed. -/
inductive Json where
  | null
  | bool (b : Bool)
  | num (lexeme : String)
  | str (s : String)
  | arr (elems : List Json)
  | obj (fields : List (String × Json))
deriving Repr, Inhabited

/-- The character `U+007B` (left curly brace). -/
def lbraceC : Char := Char.ofNat 123

/-- The character `U+007D` (right curly brace). -/
def rbraceC : Char := Char.ofNat 125

/-- Escaping of one character inside a JSON string literal (`JSON.stringify`
escapes more control characters; none occur in the repository's data). -/
def escapeJsonChar (c : Char) : String :=
  if c = '"' then "\\\""
  else if c = '\\' then "\\\\"
  else String.singleton c

def escapeJsonString (s : String) : String :=
  String.join (s.data.map escapeJsonChar)

/-- A JSON string literal with its surrounding quotes. -/
def renderJsonString (s : String) : String :=
  "\"" ++ escapeJsonString s ++ "\""

mutual

/-- Serialization of a JSON value, modelling `JSON.stringify` (the pretty
whitespace of `JSON.stringify(x, null, 2)` is abstracted away: the claims
compare serialized documents with each other, never with fixed byte files). -/
def renderJson : Json → String
  | .null => "null"
  | .bool true => "true"
  | .bool false => "false"
  | .num l => l
  | .str s => renderJsonString s
  | .arr es => "[" ++ renderJsonSeq es ++ "]"
  | .obj fs => String.singleton lbraceC ++ renderJsonFields fs ++ String.singleton rbraceC

def renderJsonSeq : List Json → String
  | [] => ""
  | [e] => renderJson e
  | e :: es => renderJson e ++ "," ++ renderJsonSeq es

def renderJsonFields : List (String × Json) → String
  | [] => ""
  | [(k, v)] => renderJsonString k ++ ":" ++ renderJson v
  | (k, v) :: fs => renderJsonString k ++ ":" ++ renderJson v ++ "," ++ renderJsonFields fs

end

/-- ASCII whitespace skipping for the JSON reader. -/
def skipWs : List Char → List Char
  | [] => []
  | c :: cs => if c = ' ' ∨ c = '\n' ∨ c = '\t' ∨ c = '\r' then skipWs cs else c :: cs

def parseHexDigit (c : Char) : Option Nat :=
  if '0' ≤ c ∧ c ≤ '9' then some (c.toNat - '0'.toNat)
  else if 'a' ≤ c ∧ c ≤ 'f' then some (c.toNat - 'a'.toNat + 10)
  else if 'A' ≤ c ∧ c ≤ 'F' then some (c.toNat - 'A'.toNat + 10)
  else none

/-- Body of a JSON string literal after its opening quote: returns the decoded
string and the input after the closing quote. -/
def parseStringBody : Nat → List Char → Option (String × List Char)
  | 0, _ => none
  | _, [] => none
  | fuel+1, c :: cs =>
    if c = '"' then some ("", cs)
    else if c = '\\' then
      match cs with
      | [] => none
      | e :: cs2 =>
        if e = '"' ∨ e = '\\' ∨ e = '/' then
          (parseStringBody fuel cs2).map (fun p => (String.singleton e ++ p.1, p.2))
        else if e = 'n' then
          (parseStringBody fuel cs2).map (fun p => (String.singleton '\n' ++ p.1, p.2))
        else if e = 't' then
          (parseStringBody fuel cs2).map (fun p => (String.singleton '\t' ++ p.1, p.2))
        else if e = 'r' then
          (parseStringBody fuel cs2).map (fun p => (String.singleton '\r' ++ p.1, p.2))
        else if e = 'b' then
          (parseStringBody fuel cs2).map (fun p => (String.singleton (Char.ofNat 8) ++ p.1, p.2))
        else if e = 'f' then
          (parseStringBody fuel cs2).map (fun p => (String.singleton (Char.ofNat 12) ++ p.1, p.2))
        else if e = 'u' then
          match cs2 with
          | a :: b :: c3 :: d :: rest =>
            match parseHexDigit a, parseHexDigit b, parseHexDigit c3, parseHexDigit d with
            | some ha, some hb, some hc, some hd =>
              (parseStringBody fuel rest).map
                (fun p => (String.singleton (Char.ofNat (((ha*16+hb)*16+hc)*16+hd)) ++ p.1, p.2))
            | _, _, _, _ => none
          | _ => none
        else none
    else (parseStringBody fuel cs).map (fun p => (String.singleton c ++ p.1, p.2))

def lexDigits (cs : List Char) : List Char × List Char :=
  cs.span (fun c => c.isDigit)

/-- Lexing of a JSON number; the lexeme is kept verbatim.  (Leading-zero
rejection of strict JSON is not modelled; the repository's documents contain
no numbers at all.) -/
def parseNumberLexeme (cs : List Char) : Option (Json × List Char) :=
  let signAndBody : List Char × List Char :=
    match cs with
    | '-' :: r => (['-'], r)
    | _ => ([], cs)
  match lexDigits signAndBody.2 with
  | ([], _) => none
  | (intPart, r1) =>
    let fracAndRest : List Char × List Char :=
      match r1 with
      | '.' :: r =>
        match lexDigits r with
        | ([], _) => ([], r1)
        | (ds, r2) => ('.' :: ds, r2)
      | _ => ([], r1)
    let expAndRest : List Char × List Char :=
      match fracAndRest.2 with
      | e :: r =>
        if e = 'e' ∨ e = 'E' then
          match r with
          | s :: r2 =>
            if s = '+' ∨ s = '-' then
              match lexDigits r2 with
              | ([], _) => ([], fracAndRest.2)
              | (ds, r3) => (e :: s :: ds, r3)
            else
              match lexDigits r with
              | ([], _) => ([], fracAndRest.2)
              | (ds, r3) => (e :: ds, r3)
          | [] => ([], fracAndRest.2)
        else ([], fracAndRest.2)
      | [] => ([], fracAndRest.2)
    some (Json.num (String.mk (signAndBody.1 ++ intPart ++ fracAndRest.1 ++ expAndRest.1)),
          expAndRest.2)

mutual

/-- Fuel-indexed recursive-descent JSON reader (one value). -/
def parseJsonValue : Nat → List Char → Option (Json × List Char)
  | 0, _ => none
  | fuel+1, input =>
    match skipWs input with
    | [] => none
    | c :: rest =>
      if c = '"' then
        (parseStringBody (rest.length + 1) rest).map (fun p => (Json.str p.1, p.2))
      else if c = '[' then
        match skipWs rest with
        | ']' :: r => some (Json.arr [], r)
        | _ =>
          match parseJsonElems fuel rest with
          | some (es, r) => some (Json.arr es, r)
          | none => none
      else if c = lbraceC then
        match skipWs rest with
        | d :: r =>
          if d = rbraceC then some (Json.obj [], r)
          else
            match parseJsonFields fuel (d :: r) with
            | some (fs, r2) => some (Json.obj fs, r2)
            | none => none
        | [] => none
      else if c = 't' then
        match rest with
        | 'r' :: 'u' :: 'e' :: r => some (Json.bool true, r)
        | _ => none
      else if c = 'f' then
        match rest with
        | 'a' :: 'l' :: 's' :: 'e' :: r => some (Json.bool false, r)
        | _ => none
      else if c = 'n' then
        match rest with
        | 'u' :: 'l' :: 'l' :: r => some (Json.null, r)
        | _ => none
      else if c = '-' ∨ c.isDigit then parseNumberLexeme (c :: rest)
      else none

/-- Non-empty comma-separated array elements up to the closing bracket. -/
def parseJsonElems : Nat → List Char → Option (List Json × List Char)
  | 0, _ => none
  | fuel+1, input =>
    match parseJsonValue fuel input with
    | none => none
    | some (v, r) =>
      match skipWs r with
      | ',' :: r2 =>
        match parseJsonElems fuel r2 with
        | some (vs, r3) => some (v :: vs, r3)
        | none => none
      | ']' :: r2 => some ([v], r2)
      | _ => none

/-- Non-empty comma-separated object members up to the closing brace. -/
def parseJsonFields : Nat → List Char → Option (List (String × Json) × List Char)
  | 0, _ => none
  | fuel+1, input =>
    match skipWs input with
    | '"' :: r =>
      match parseStringBody (r.length + 1) r with
      | none => none
      | some (k, r1) =>
        match skipWs r1 with
        | ':' :: r2 =>
          match parseJsonValue fuel r2 with
          | none => none
          | some (v, r3) =>
            match skipWs r3 with
            | ',' :: r4 =>
              match parseJsonFields fuel r4 with
              | some (fs, r5) => some ((k, v) :: fs, r5)
              | none => none
            | d :: r4 =>
              if d = rbraceC then some ([(k, v)], r4) else none
            | [] => none
        | _ => none
    | _ => none

end

/-- `JSON.parse`: `none` models the `SyntaxError` thrown on invalid input. -/
def jsonParse (s : String) : Option Json :=
  match parseJsonValue (2 * s.length + 2) s.data with
  | some (j, rest) =>
    match skipWs rest with
    | [] => some j
    | _ => none
  | none => none

/-! ## Data model of the web-types documents (`src/utils/api.ts` lines 44–180) -/

/-- One entry of `contributions.html.tags`: a component. -/
structure VarletTag where
  name : String
  description : String
deriving Repr, DecidableEq

/-- One entry of `contributions.html.attributes`: a directive; `docUrl` models
the optional `doc-url` member. -/
structure VarletAttr where
  name : String
  description : String
  docUrl : Option String
deriving Repr, DecidableEq

/-- The document shape built by `cacheApi` (both the fetched and the fallback
object literal share it). -/
structure VarletWebTypes where
  schema : String
  framework : String
  name : String
  version : String
  typesSyntaxVal : String
  descriptionMarkup : String
  tags : List VarletTag
  attributes : List VarletAttr
deriving Repr, DecidableEq

def tagToJson (t : VarletTag) : Json :=
  .obj [("name", .str t.name), ("description", .str t.description)]

def attrToJson (a : VarletAttr) : Json :=
  .obj ([("name", .str a.name), ("description", .str a.description)] ++
    (match a.docUrl with
     | some u => [("doc-url", .str u)]
     | none => []))

/-- The JSON object literal of the document, member order as in the source. -/
def webTypesToJson (d : VarletWebTypes) : Json :=
  .obj [
    ("$schema", .str d.schema),
    ("framework", .str d.framework),
    ("name", .str d.name),
    ("version", .str d.version),
    ("contributions", .obj [
      ("html", .obj [
        ("types-syntax", .str d.typesSyntaxVal),
        ("description-markup", .str d.descriptionMarkup),
        ("tags", .arr (d.tags.map tagToJson)),
        ("attributes", .arr (d.attributes.map attrToJson))])])]

/-- The fixed embedded tag list of `webTypesData` (lines 54–129). -/
def webTypesTags : List VarletTag := [
  ⟨"var-app-bar", "App bar component"⟩,
  ⟨"var-back-top", "Back to top component"⟩,
  ⟨"var-badge", "Badge component"⟩,
  ⟨"var-button", "Button component"⟩,
  ⟨"var-card", "Card component"⟩,
  ⟨"var-cell", "Cell component"⟩,
  ⟨"var-checkbox", "Checkbox component"⟩,
  ⟨"var-chip", "Chip component"⟩,
  ⟨"var-col", "Grid column component"⟩,
  ⟨"var-collapse", "Collapse component"⟩,
  ⟨"var-collapse-item", "Collapse item component"⟩,
  ⟨"var-countdown", "Countdown component"⟩,
  ⟨"var-counter", "Counter component"⟩,
  ⟨"var-date-picker", "Date picker component"⟩,
  ⟨"var-dialog", "Dialog component"⟩,
  ⟨"var-divider", "Divider component"⟩,
  ⟨"var-drag", "Drag component"⟩,
  ⟨"var-ellipsis", "Ellipsis component"⟩,
  ⟨"var-fab", "Floating action button component"⟩,
  ⟨"var-form", "Form component"⟩,
  ⟨"var-icon", "Icon component"⟩,
  ⟨"var-image", "Image component"⟩,
  ⟨"var-image-preview", "Image preview component"⟩,
  ⟨"var-index-bar", "Index bar component"⟩,
  ⟨"var-index-anchor", "Index anchor component"⟩,
  ⟨"var-input", "Input component"⟩,
  ⟨"var-lazy", "Lazy load component"⟩,
  ⟨"var-list", "List component"⟩,
  ⟨"var-loading", "Loading component"⟩,
  ⟨"var-menu", "Menu component"⟩,
  ⟨"var-option", "Option component for Select"⟩,
  ⟨"var-overlay", "Overlay component"⟩,
  ⟨"var-pagination", "Pagination component"⟩,
  ⟨"var-picker", "Picker component"⟩,
  ⟨"var-popup", "Popup component"⟩,
  ⟨"var-progress", "Progress component"⟩,
  ⟨"var-pull-refresh", "Pull to refresh component"⟩,
  ⟨"var-radio", "Radio button component"⟩,
  ⟨"var-radio-group", "Radio group component"⟩,
  ⟨"var-rate", "Rate component"⟩,
  ⟨"var-result", "Result component"⟩,
  ⟨"var-row", "Grid row component"⟩,
  ⟨"var-select", "Select component"⟩,
  ⟨"var-skeleton", "Skeleton component"⟩,
  ⟨"var-slider", "Slider component"⟩,
  ⟨"var-snackbar", "Snackbar component"⟩,
  ⟨"var-space", "Space component"⟩,
  ⟨"var-step", "Step component"⟩,
  ⟨"var-steps", "Steps component"⟩,
  ⟨"var-sticky", "Sticky component"⟩,
  ⟨"var-swipe", "Swipe component"⟩,
  ⟨"var-swipe-item", "Swipe item component"⟩,
  ⟨"var-switch", "Switch component"⟩,
  ⟨"var-tab", "Tab component"⟩,
  ⟨"var-tab-item", "Tab item component"⟩,
  ⟨"var-table", "Table component"⟩,
  ⟨"var-tabs", "Tabs component"⟩,
  ⟨"var-tabs-items", "Tabs items component"⟩,
  ⟨"var-time-picker", "Time picker component"⟩,
  ⟨"var-tooltip", "Tooltip component"⟩,
  ⟨"var-uploader", "Uploader component"⟩,
  ⟨"var-watermark", "Watermark component"⟩]

/-- The single directive entry of `webTypesData` (lines 130–136). -/
def rippleAttr : VarletAttr :=
  ⟨"v-ripple", "Ripple effect directive",
   some "https://varlet.gitee.io/varlet-ui/#/en-US/ripple"⟩

/-- `webTypesData` (lines 44–139): the document built after a successful
registry fetch; everything but `version` is an embedded constant. -/
def webTypesData (realVersion : String) : VarletWebTypes where
  schema := "https://raw.githubusercontent.com/JetBrains/web-types/master/schema/web-types.json"
  framework := "vue"
  name := "@varlet/ui"
  version := realVersion
  typesSyntaxVal := "typescript"
  descriptionMarkup := "markdown"
  tags := webTypesTags
  attributes := [rippleAttr]

/-- The fixed tag list of the fallback document (lines 166–170). -/
def fallbackTags : List VarletTag := [
  ⟨"var-button", "Button component"⟩,
  ⟨"var-card", "Card component"⟩,
  ⟨"var-input", "Input component"⟩]

/-- `fallbackData` (lines 156–179): the static document returned when the
registry fetch fails; `"latest"` is replaced by the hardcoded `"3.11.1"`. -/
def fallbackData (version : String) : VarletWebTypes where
  schema := "https://raw.githubusercontent.com/JetBrains/web-types/master/schema/web-types.json"
  framework := "vue"
  name := "@varlet/ui"
  version := if version == "latest" then "3.11.1" else version
  typesSyntaxVal := "typescript"
  descriptionMarkup := "markdown"
  tags := fallbackTags
  attributes := [⟨"v-ripple", "Ripple effect directive", none⟩]

/-! ## The cache/fetch pipeline (`cacheApi`, lines 18–182) -/

/-- Response of the npm-registry fetch once decoded, the
`packageData` of line 34: `dist-tags.latest` plus the (unused) versions map. -/
structure RegistryData where
  distTagsLatest : String
  versions : List String
deriving Repr, DecidableEq

/-- Outcome of the external calls during one run: `registry = none` models a
failed fetch or an undecodable response (the `catch` of line 153);
`writeOk = false` models `mkdir`/`writeFile` failing (the `catch` of
line 148). -/
structure FetchEnv where
  registry : Option RegistryData
  writeOk : Bool
deriving Repr

/-- On-disk cache directory (filename ↦ contents) plus a counter of
upstream registry requests, the observable the coalescing property talks
about. -/
structure CacheState where
  files : List (String × String)
  fetchCount : Nat
deriving Repr, DecidableEq

/-- `_CACHE_FILE` (lines 15–16): cache filename for a version token. -/
def cacheFileName (version : String) : String :=
  "varlet-" ++ version ++ ".json"

/-- `readFile` over the modelled directory. -/
def fsRead (files : List (String × String)) (file : String) : Option String :=
  (files.find? (fun p => p.1 == file)).map (fun p => p.2)

/-- `writeFile`: last write wins, one record per filename. -/
def fsWrite (files : List (String × String)) (file data : String) :
    List (String × String) :=
  (file, data) :: files.filter (fun p => p.1 != file)

/-- Lines 30–181 of `cacheApi`: everything after the cache read missed —
fetch the package info, build the document, best-effort cache write, and on
any fetch failure return the fallback document instead (never cached). -/
def fetchAndBuild (env : FetchEnv) (st : CacheState) (version : String) :
    String × CacheState :=
  let st1 : CacheState := { st with fetchCount := st.fetchCount + 1 }
  match env.registry with
  | some packageData =>
    let realVersion := if version == "latest" then packageData.distTagsLatest else version
    let jsonData := renderJson (webTypesToJson (webTypesData realVersion))
    let files :=
      if env.writeOk then fsWrite st1.files (cacheFileName version) jsonData
      else st1.files
    (jsonData, { st1 with files := files })
  | none =>
    (renderJson (webTypesToJson (fallbackData version)), st1)

/-- `cacheApi` (lines 18–182): serve the cached record verbatim when the read
succeeds, otherwise fetch/build/cache.  The returned string is what the
`Promise<string>` resolves with; all throws are caught inside. -/
def cacheApi (env : FetchEnv) (st : CacheState) (version : String) :
    String × CacheState :=
  match fsRead st.files (cacheFileName version) with
  | some cachedData => (cachedData, st)
  | none => fetchAndBuild env st version

/-! ## The component tool (`src/tools/api.ts`, `get_component_api_by_version`,
lines 115–146) -/

/-- `componentName.replace('-', '')`: the JavaScript `String.replace` with a
string pattern removes only the FIRST occurrence. -/
def removeFirstDash : List Char → List Char
  | [] => []
  | c :: cs => if c = '-' then cs else c :: removeFirstDash cs

/-- ASCII lowercasing of one character, as `toLowerCase` acts on the ASCII
names occurring here. -/
def lowerChar (c : Char) : Char :=
  if 'A' ≤ c ∧ c ≤ 'Z' then Char.ofNat (c.toNat + 32) else c

/-- `String.prototype.toLowerCase`. -/
def lowerStr (s : String) : String :=
  String.mk (s.data.map lowerChar)

def startsWithChars : List Char → List Char → Bool
  | _, [] => true
  | [], _ :: _ => false
  | c :: cs, d :: ds => c == d && startsWithChars cs ds

/-- `String.prototype.startsWith`. -/
def strStartsWith (s p : String) : Bool :=
  startsWithChars s.data p.data

/-- Lines 117–121: `componentName.replace('-', '').toLowerCase()`, then the
`var` marker is prepended when missing. -/
def componentTarget (componentName : String) : String :=
  let target := lowerStr (String.mk (removeFirstDash componentName.data))
  if strStartsWith target "var" then target else "var-" ++ target

/-- JavaScript field access `j.k`: `undefined` (`none`) unless `j` is an
object with a member `k` (first member wins, as in `JSON.parse` output the
last duplicate wins — the documents here have no duplicate keys). -/
def jsonField (j : Json) (k : String) : Option Json :=
  match j with
  | .obj fields => (fields.find? (fun p => p.1 == k)).map (fun p => p.2)
  | _ => none

/-- `tag.name.toLowerCase()` on one element of the `tags` array: `none` when
the element has no string `name` member, in which case the callback of
`find` throws a `TypeError`. -/
def tagNameLower (t : Json) : Option String :=
  match jsonField t "name" with
  | some (.str s) => some (lowerStr s)
  | _ => none

/-- `tags.find(tag => tag.name.toLowerCase() === target)`, including the
`TypeError` escape when an element has no string name. -/
def findTag : List Json → String → Except String (Option Json)
  | [], _ => .ok none
  | t :: ts, target =>
    match tagNameLower t with
    | none => .error "TypeError: tag.name.toLowerCase is not a function"
    | some n => if n == target then .ok (some t) else findTag ts target

/-- The `SyntaxError` message of a failed `JSON.parse`. -/
def jsonParseError : String := "SyntaxError: Unexpected token in JSON"

/-- The `TypeError` thrown when the parsed value lacks
`contributions.html.tags` as an array. -/
def shapeError : String := "TypeError: cannot read tags"

/-- The `get_component_api_by_version` handler (lines 115–146): parse the
string from `cacheApi`, normalize the name, scan the tags.  `Except.error`
models an exception escaping the handler; the `CacheState` carries the
external effects that already happened either way. -/
def get_component_api_by_version (env : FetchEnv) (st : CacheState)
    (componentName version : String) : Except String String × CacheState :=
  let r := cacheApi env st version
  match jsonParse r.1 with
  | none => (.error jsonParseError, r.2)
  | some api =>
    match (jsonField api "contributions").bind
        (fun c => (jsonField c "html").bind (fun h => jsonField h "tags")) with
    | some (.arr tags) =>
      let target := componentTarget componentName
      match findTag tags target with
      | .error e => (.error e, r.2)
      | .ok (some tag) => (.ok (renderJson tag), r.2)
      | .ok none =>
        (.ok ("Component \"" ++ target ++ "\" not found in Varlet version " ++
          version ++ "."), r.2)
    | _ => (.error shapeError, r.2)

/-! ## Interleaved concurrent executions of `cacheApi`

The server is single-process with cooperative scheduling: `await` points
interleave.  One `cacheApi` call has two relevant atomic sections, the cache
read (up to line 28) and the rest (fetch/build/write/return); a call
suspends at the `readFile` and `fetch` awaits, so two calls can both observe
a miss before either writes.  `runSchedule` executes two calls under an
explicit schedule (`true` steps the first call). -/

/-- Progress of one in-flight `cacheApi` call. -/
inductive CallPhase where
  | start
  | fetching
  | done (result : String)
deriving Repr, DecidableEq

def CallPhase.isDone : CallPhase → Bool
  | .done _ => true
  | _ => false

/-- One atomic section of a `cacheApi` call against the shared state. -/
def stepCall (env : FetchEnv) (version : String) (st : CacheState) :
    CallPhase → CacheState × CallPhase
  | .start =>
    match fsRead st.files (cacheFileName version) with
    | some cachedData => (st, .done cachedData)
    | none => (st, .fetching)
  | .fetching =>
    let r := fetchAndBuild env st version
    (r.2, .done r.1)
  | .done r => (st, .done r)

/-- Shared state plus the two calls' phases. -/
structure ConcState where
  world : CacheState
  c1 : CallPhase
  c2 : CallPhase
deriving Repr, DecidableEq

/-- Run a schedule: `true` steps call 1, `false` steps call 2. -/
def runSchedule (env : FetchEnv) (version : String) :
    List Bool → ConcState → ConcState
  | [], s => s
  | b :: bs, s =>
    if b then
      let r := stepCall env version s.world s.c1
      runSchedule env version bs { s with world := r.1, c1 := r.2 }
    else
      let r := stepCall env version s.world s.c2
      runSchedule env version bs { s with world := r.1, c2 := r.2 }

/-! ## Structural validity of a parsed document

The shape the tool layer relies on, read off the `VarletWebTypes` interface
of `src/tools/api.ts` (lines 6–20): string `$schema`, `framework`, `name`,
`version`, and `contributions.html` with `types-syntax`,
`description-markup` and a `tags` array whose members carry a string
`name`. -/

def isStringJson : Json → Bool
  | .str _ => true
  | _ => false

def isTagShaped (t : Json) : Bool :=
  match jsonField t "name" with
  | some (.str _) => true
  | _ => false

def isValidWebTypes (j : Json) : Bool :=
  isStringJson ((jsonField j "$schema").getD .null) &&
  isStringJson ((jsonField j "framework").getD .null) &&
  isStringJson ((jsonField j "name").getD .null) &&
  isStringJson ((jsonField j "version").getD .null) &&
  (match (jsonField j "contributions").bind (fun c => jsonField c "html") with
   | some h =>
     isStringJson ((jsonField h "types-syntax").getD .null) &&
     isStringJson ((jsonField h "description-markup").getD .null) &&
     (match jsonField h "tags" with
      | some (.arr ts) => ts.all isTagShaped
      | _ => false)
   | none => false)

/-! ## Helper lemmas -/

theorem fsRead_fsWrite_self (files : List (String × String)) (file data : String) :
    fsRead (fsWrite files file data) file = some data := by
  simp [fsRead, fsWrite]

/-! ## C1 — cache key for `"latest"` requests -/

/-- C1 counterexample: a `"latest"` request that misses the cache and fetches
successfully (the registry resolves `latest` to `3.5.0`) persists the
document under the literal key `varlet-latest.json`; nothing is stored under
the resolved concrete version's key `varlet-3.5.0.json`.  This contradicts
the claim that the document is persisted under the resolved concrete
version, never under the literal token `"latest"`. -/
theorem C1_counterexample :
    (cacheApi ⟨some ⟨"3.5.0", []⟩, true⟩ ⟨[], 0⟩ "latest").2.files.map Prod.fst
      = [cacheFileName "latest"]
    ∧ fsRead (cacheApi ⟨some ⟨"3.5.0", []⟩, true⟩ ⟨[], 0⟩ "latest").2.files
        (cacheFileName "3.5.0") = none := ⟨rfl, rfl⟩

/-- C1 (amended): on a cache miss with a successful registry fetch and a
successful write, the document is persisted under the *originally requested*
version token as its cache key — literally under `"latest"` when that was
requested — while the resolved concrete version appears only inside the
document's `version` field. -/
theorem C1_theorem (env : FetchEnv) (pkg : RegistryData) (st : CacheState)
    (version : String)
    (hreg : env.registry = some pkg) (hwrite : env.writeOk = true)
    (hmiss : fsRead st.files (cacheFileName version) = none) :
    fsRead (cacheApi env st version).2.files (cacheFileName version)
      = some (renderJson (webTypesToJson (webTypesData
          (if version == "latest" then pkg.distTagsLatest else version)))) := by
  simp [cacheApi, hmiss, fetchAndBuild, hreg, hwrite, fsRead_fsWrite_self]

/-- C1 witness: the amended statement evaluated at the `"latest"` request
against a registry whose `latest` pointer names `3.5.0`. -/
theorem C1_witness :
    fsRead (cacheApi ⟨some ⟨"3.5.0", []⟩, true⟩ ⟨[], 0⟩ "latest").2.files
        (cacheFileName "latest")
      = some (renderJson (webTypesToJson (webTypesData
          (if "latest" == "latest" then "3.5.0" else "latest")))) :=
  C1_theorem ⟨some ⟨"3.5.0", []⟩, true⟩ ⟨"3.5.0", []⟩ ⟨[], 0⟩ "latest" rfl rfl rfl

/-! ## C2 — corrupt cache records -/

/-- C2 counterexample: with a cache record for version `1.0.0` holding bytes
that fail to deserialize (`jsonParse` rejects them), the component tool call
raises (`JSON.parse` throws) instead of treating the record as absent: the
error propagates, no fresh fetch happens (`fetchCount` stays `0`) and the
corrupt record is not evicted. -/
theorem C2_counterexample :
    jsonParse "corrupt cache bytes" = none
    ∧ get_component_api_by_version ⟨some ⟨"3.5.0", []⟩, true⟩
        ⟨[(cacheFileName "1.0.0", "corrupt cache bytes")], 0⟩ "Button" "1.0.0"
      = (.error jsonParseError,
         ⟨[(cacheFileName "1.0.0", "corrupt cache bytes")], 0⟩) := ⟨rfl, rfl⟩

/-- C2 (amended): a cache record that reads successfully is served as a hit
by `cacheApi` regardless of its content; when the content fails to
deserialize, the `JSON.parse` error propagates to the tool caller, with no
fresh fetch and no eviction — only a failed *read* is treated as absent. -/
theorem C2_theorem (env : FetchEnv) (st : CacheState)
    (componentName version s : String)
    (hcached : fsRead st.files (cacheFileName version) = some s)
    (hbad : jsonParse s = none) :
    get_component_api_by_version env st componentName version
      = (.error jsonParseError, st) := by
  simp [get_component_api_by_version, cacheApi, hcached, hbad]

/-- C2 witness: the amended statement evaluated at a concrete corrupt
record. -/
theorem C2_witness :
    get_component_api_by_version ⟨none, false⟩
        ⟨[(cacheFileName "2.0.0", "corrupt cache bytes")], 5⟩ "Card" "2.0.0"
      = (.error jsonParseError,
         ⟨[(cacheFileName "2.0.0", "corrupt cache bytes")], 5⟩) :=
  C2_theorem ⟨none, false⟩ ⟨[(cacheFileName "2.0.0", "corrupt cache bytes")], 5⟩
    "Card" "2.0.0" "corrupt cache bytes" rfl rfl

/-! ## C3 — component-name normalization round trip -/

/-- C3: against a served document containing the entry named `var-button`
(the fallback document, so the whole tool path is exercised), the inputs
`"Button"` and `"button"` return that entry, but `"var-button"` does NOT:
`componentName.replace('-', '')` removes only the first hyphen, turning
`"var-button"` into `"varbutton"`, which then already passes the
`startsWith('var')` guard and is looked up verbatim — a not-found message
results.  The code thus fails the claimed normalization round trip on the
fully-prefixed spelling. -/
theorem C3_theorem :
    componentTarget "Button" = "var-button"
    ∧ componentTarget "button" = "var-button"
    ∧ componentTarget "var-button" = "varbutton"
    ∧ (get_component_api_by_version ⟨none, true⟩ ⟨[], 0⟩ "Button" "1.0.0").1
        = .ok (renderJson (tagToJson ⟨"var-button", "Button component"⟩))
    ∧ (get_component_api_by_version ⟨none, true⟩ ⟨[], 0⟩ "button" "1.0.0").1
        = .ok (renderJson (tagToJson ⟨"var-button", "Button component"⟩))
    ∧ (get_component_api_by_version ⟨none, true⟩ ⟨[], 0⟩ "var-button" "1.0.0").1
        = .ok "Component \"varbutton\" not found in Varlet version 1.0.0." :=
  ⟨rfl, rfl, rfl, rfl, rfl, rfl⟩

/-! ## C4 — graceful degradation and the `sourceTier` tag -/

/-- C4 counterexample: with the registry unreachable and a cache miss, the
fetch does return (never raises) the static fallback document — but that
document carries no `sourceTier` member at all, let alone one equal to
`"static-fallback"`, contradicting the claim's tagging requirement. -/
theorem C4_counterexample :
    (cacheApi ⟨none, true⟩ ⟨[], 0⟩ "1.2.3").1
      = renderJson (webTypesToJson (fallbackData "1.2.3"))
    ∧ jsonField (webTypesToJson (fallbackData "1.2.3")) "sourceTier" = none :=
  ⟨rfl, rfl⟩

/-- C4 (amended): the fetch never raises — on a cache miss with the upstream
fetch failing it still returns the embedded static fallback document, which
is structurally valid for the `VarletWebTypes` interface; however the
documents carry no `sourceTier` field (and no intermediate `derived` tier
exists: the code has exactly one upstream attempt and one static
fallback). -/
theorem C4_theorem (env : FetchEnv) (st : CacheState) (version : String)
    (hfail : env.registry = none)
    (hmiss : fsRead st.files (cacheFileName version) = none) :
    (cacheApi env st version).1 = renderJson (webTypesToJson (fallbackData version))
    ∧ isValidWebTypes (webTypesToJson (fallbackData version)) = true
    ∧ jsonField (webTypesToJson (fallbackData version)) "sourceTier" = none := by
  refine ⟨?_, rfl, rfl⟩
  simp [cacheApi, hmiss, fetchAndBuild, hfail]

/-- C4 witness: the amended statement at a concrete unreachable-registry
environment. -/
theorem C4_witness :
    (cacheApi ⟨none, true⟩ ⟨[], 0⟩ "9.9.9").1
      = renderJson (webTypesToJson (fallbackData "9.9.9"))
    ∧ isValidWebTypes (webTypesToJson (fallbackData "9.9.9")) = true
    ∧ jsonField (webTypesToJson (fallbackData "9.9.9")) "sourceTier" = none :=
  C4_theorem ⟨none, true⟩ ⟨[], 0⟩ "9.9.9" rfl rfl

/-! ## C5 — unreachable registry on an uncached `"latest"` request -/

/-- C5 counterexample: with the upstream registry unreachable and nothing
cached, the `"latest"` request does not raise any `ResolutionError`: it
returns a string that parses as a well-formed document (the static fallback,
whose `version` field is the hardcoded `"3.11.1"`). -/
theorem C5_counterexample :
    jsonParse (cacheApi ⟨none, true⟩ ⟨[], 0⟩ "latest").1
      = some (webTypesToJson (fallbackData "latest"))
    ∧ (fallbackData "latest").version = "3.11.1" := ⟨rfl, rfl⟩

/-- C5 (amended): the pipeline never raises: when the registry is
unreachable and no record for `"latest"` is cached, the `"latest"` request
returns the static fallback document, whose `version` field is the
hardcoded `"3.11.1"`. -/
theorem C5_theorem (env : FetchEnv) (st : CacheState)
    (hfail : env.registry = none)
    (hmiss : fsRead st.files (cacheFileName "latest") = none) :
    (cacheApi env st "latest").1 = renderJson (webTypesToJson (fallbackData "latest"))
    ∧ (fallbackData "latest").version = "3.11.1" := by
  refine ⟨?_, rfl⟩
  simp [cacheApi, hmiss, fetchAndBuild, hfail]

/-- C5 witness: the amended statement at a concrete empty cache. -/
theorem C5_witness :
    (cacheApi ⟨none, false⟩ ⟨[], 3⟩ "latest").1
      = renderJson (webTypesToJson (fallbackData "latest"))
    ∧ (fallbackData "latest").version = "3.11.1" :=
  C5_theorem ⟨none, false⟩ ⟨[], 3⟩ rfl rfl

/-! ## C6 — idempotence of two successive calls -/

/-- C6 counterexample: with the registry unreachable and an empty cache, two
immediate successive calls for version `1.0.0` each perform an upstream
fetch attempt (`fetchCount` ends at `2`): the fallback result of the first
call was never cached, so the second call is not the claimed no-network
cache hit. -/
theorem C6_counterexample :
    (cacheApi ⟨none, true⟩ (cacheApi ⟨none, true⟩ ⟨[], 0⟩ "1.0.0").2 "1.0.0").2.fetchCount
      = 2 := rfl

/-- C6 (amended): when the first call's registry fetch and cache write both
succeed, an immediately repeated call for the same token is a pure cache
hit: it returns byte-identical content and leaves the state untouched (in
particular no further network call — `fetchCount` unchanged); when the first
call served the fallback (or its write failed), nothing was persisted and
the second call fetches again. -/
theorem C6_theorem (env : FetchEnv) (pkg : RegistryData) (st : CacheState)
    (version : String)
    (hreg : env.registry = some pkg) (hwrite : env.writeOk = true)
    (hmiss : fsRead st.files (cacheFileName version) = none) :
    (cacheApi env (cacheApi env st version).2 version).1 = (cacheApi env st version).1
    ∧ (cacheApi env (cacheApi env st version).2 version).2 = (cacheApi env st version).2 := by
  constructor <;>
    simp [cacheApi, hmiss, fetchAndBuild, hreg, hwrite, fsRead_fsWrite_self]

/-- C6 witness: the amended statement at a concrete successful fetch. -/
theorem C6_witness :
    (cacheApi ⟨some ⟨"3.5.0", []⟩, true⟩
        (cacheApi ⟨some ⟨"3.5.0", []⟩, true⟩ ⟨[], 0⟩ "latest").2 "latest").1
      = (cacheApi ⟨some ⟨"3.5.0", []⟩, true⟩ ⟨[], 0⟩ "latest").1
    ∧ (cacheApi ⟨some ⟨"3.5.0", []⟩, true⟩
        (cacheApi ⟨some ⟨"3.5.0", []⟩, true⟩ ⟨[], 0⟩ "latest").2 "latest").2
      = (cacheApi ⟨some ⟨"3.5.0", []⟩, true⟩ ⟨[], 0⟩ "latest").2 :=
  C6_theorem ⟨some ⟨"3.5.0", []⟩, true⟩ ⟨"3.5.0", []⟩ ⟨[], 0⟩ "latest" rfl rfl rfl

/-! ## C7 — persistence before return on a cache miss -/

/-- C7 counterexample: on a cache miss with the upstream fetch failing, the
synthesized fallback document is returned but NOT persisted — the cache
directory stays empty, contradicting "persisted regardless of which
fallback tier produced it". -/
theorem C7_counterexample :
    (cacheApi ⟨none, true⟩ ⟨[], 0⟩ "1.0.0").1
      = renderJson (webTypesToJson (fallbackData "1.0.0"))
    ∧ (cacheApi ⟨none, true⟩ ⟨[], 0⟩ "1.0.0").2.files = [] := ⟨rfl, rfl⟩

/-- C7 (amended): on a cache miss the document is persisted before being
returned only on the successful-fetch path (and only when the best-effort
write succeeds); the fallback-tier document is returned without ever being
persisted, so it cannot make a subsequent call hit the cache. -/
theorem C7_theorem (env1 env2 : FetchEnv) (pkg : RegistryData)
    (st1 st2 : CacheState) (v1 v2 : String)
    (hreg1 : env1.registry = some pkg) (hwrite1 : env1.writeOk = true)
    (hmiss1 : fsRead st1.files (cacheFileName v1) = none)
    (hreg2 : env2.registry = none)
    (hmiss2 : fsRead st2.files (cacheFileName v2) = none) :
    fsRead (cacheApi env1 st1 v1).2.files (cacheFileName v1)
      = some (cacheApi env1 st1 v1).1
    ∧ (cacheApi env2 st2 v2).2.files = st2.files := by
  constructor
  · simp [cacheApi, hmiss1, fetchAndBuild, hreg1, hwrite1, fsRead_fsWrite_self]
  · simp [cacheApi, hmiss2, fetchAndBuild, hreg2]

/-- C7 witness: the amended statement at concrete environments (successful
fetch for `1.0.0`, unreachable registry for `2.0.0`). -/
theorem C7_witness :
    fsRead (cacheApi ⟨some ⟨"3.5.0", []⟩, true⟩ ⟨[], 0⟩ "1.0.0").2.files
        (cacheFileName "1.0.0")
      = some (cacheApi ⟨some ⟨"3.5.0", []⟩, true⟩ ⟨[], 0⟩ "1.0.0").1
    ∧ (cacheApi ⟨none, true⟩ ⟨[], 1⟩ "2.0.0").2.files = ([] : List (String × String)) :=
  C7_theorem ⟨some ⟨"3.5.0", []⟩, true⟩ ⟨none, true⟩ ⟨"3.5.0", []⟩
    ⟨[], 0⟩ ⟨[], 1⟩ "1.0.0" "2.0.0" rfl rfl rfl rfl rfl

/-! ## C8 — fallback document's version field -/

/-- C8 counterexample: when the fallback tier is reached for the requested
token `"latest"`, the synthesized document's `version` field is the
hardcoded `"3.11.1"`, not the originally requested string verbatim. -/
theorem C8_counterexample :
    (cacheApi ⟨none, false⟩ ⟨[], 0⟩ "latest").1
      = renderJson (webTypesToJson (fallbackData "latest"))
    ∧ (fallbackData "latest").version = "3.11.1"
    ∧ "3.11.1" ≠ "latest" := ⟨rfl, rfl, by decide⟩

/-- C8 (amended): when the fallback tier is reached, the synthesized
document's `version` field equals the requested version string verbatim for
every token except `"latest"`, which is replaced by the hardcoded
`"3.11.1"`. -/
theorem C8_theorem (env : FetchEnv) (st : CacheState) (version : String)
    (hfail : env.registry = none)
    (hmiss : fsRead st.files (cacheFileName version) = none) :
    (cacheApi env st version).1 = renderJson (webTypesToJson (fallbackData version))
    ∧ (fallbackData version).version
        = (if version == "latest" then "3.11.1" else version) := by
  refine ⟨?_, rfl⟩
  simp [cacheApi, hmiss, fetchAndBuild, hfail]

/-- C8 witness: the amended statement at the concrete token `"4.0.0"` (kept
verbatim, since `"4.0.0" == "latest"` is false). -/
theorem C8_witness :
    (cacheApi ⟨none, true⟩ ⟨[], 0⟩ "4.0.0").1
      = renderJson (webTypesToJson (fallbackData "4.0.0"))
    ∧ (fallbackData "4.0.0").version
        = (if "4.0.0" == "latest" then "3.11.1" else "4.0.0") :=
  C8_theorem ⟨none, true⟩ ⟨[], 0⟩ "4.0.0" rfl rfl

/-! ## C9 — request coalescing -/

/-- C9 counterexample: two concurrent calls for the uncached version
`1.0.0`, interleaved so that both cache reads happen before either fetch
completes (schedule `[call1, call2, call1, call2]`), both run to completion
and perform two upstream fetch attempts — not the claimed exactly one. -/
theorem C9_counterexample :
    (runSchedule ⟨some ⟨"3.5.0", []⟩, true⟩ "1.0.0" [true, false, true, false]
        ⟨⟨[], 0⟩, CallPhase.start, CallPhase.start⟩).c1.isDone = true
    ∧ (runSchedule ⟨some ⟨"3.5.0", []⟩, true⟩ "1.0.0" [true, false, true, false]
        ⟨⟨[], 0⟩, CallPhase.start, CallPhase.start⟩).c2.isDone = true
    ∧ (runSchedule ⟨some ⟨"3.5.0", []⟩, true⟩ "1.0.0" [true, false, true, false]
        ⟨⟨[], 0⟩, CallPhase.start, CallPhase.start⟩).world.fetchCount = 2 :=
  ⟨rfl, rfl, rfl⟩

/-- C9 (amended): there is no request coalescing: whenever two concurrent
calls for the same version both observe the cache miss before either
completes its fetch, each triggers its own upstream fetch attempt — the
fetch counter rises by two, under every environment (reachable or not,
write succeeding or not). -/
theorem C9_theorem (env : FetchEnv) (st : CacheState) (version : String)
    (hmiss : fsRead st.files (cacheFileName version) = none) :
    (runSchedule env version [true, false, true, false]
        ⟨st, CallPhase.start, CallPhase.start⟩).world.fetchCount
      = st.fetchCount + 2 := by
  rcases env with ⟨reg, w⟩
  rcases reg with _ | pkg <;>
    simp [runSchedule, stepCall, fetchAndBuild, hmiss]

/-- C9 witness: the amended statement at a concrete uncached version. -/
theorem C9_witness :
    (runSchedule ⟨none, true⟩ "2.0.0" [true, false, true, false]
        ⟨⟨[], 4⟩, CallPhase.start, CallPhase.start⟩).world.fetchCount = 4 + 2 :=
  C9_theorem ⟨none, true⟩ ⟨[], 4⟩ "2.0.0" rfl

/-! ## C10 — version-independence of the fetched document -/

/-- C10: for any two requests whose registry fetch succeeds (even against
different registry snapshots), the served documents are identical except
for the `version` field: the `tags` sequence is always the fixed embedded
baseline list, the `attributes` sequence is exactly the single `v-ripple`
directive entry, and overwriting one document's `version` with the other's
yields the other document — no per-version component metadata is ever taken
from upstream. -/
theorem C10_theorem (env1 env2 : FetchEnv) (pkg1 pkg2 : RegistryData)
    (st1 st2 : CacheState) (v1 v2 : String)
    (hreg1 : env1.registry = some pkg1) (hreg2 : env2.registry = some pkg2)
    (hmiss1 : fsRead st1.files (cacheFileName v1) = none)
    (hmiss2 : fsRead st2.files (cacheFileName v2) = none) :
    (cacheApi env1 st1 v1).1 = renderJson (webTypesToJson (webTypesData
        (if v1 == "latest" then pkg1.distTagsLatest else v1)))
    ∧ (cacheApi env2 st2 v2).1 = renderJson (webTypesToJson (webTypesData
        (if v2 == "latest" then pkg2.distTagsLatest else v2)))
    ∧ (webTypesData (if v1 == "latest" then pkg1.distTagsLatest else v1)).tags
        = webTypesTags
    ∧ (webTypesData (if v1 == "latest" then pkg1.distTagsLatest else v1)).attributes
        = [rippleAttr]
    ∧ { webTypesData (if v1 == "latest" then pkg1.distTagsLatest else v1) with
          version := (webTypesData
            (if v2 == "latest" then pkg2.distTagsLatest else v2)).version }
        = webTypesData (if v2 == "latest" then pkg2.distTagsLatest else v2) := by
  refine ⟨?_, ?_, rfl, rfl, rfl⟩ <;>
    simp [cacheApi, fetchAndBuild, hreg1, hreg2, hmiss1, hmiss2]

/-- C10 witness: the statement at two concrete requests (`"latest"` resolved
to `3.5.0` by one snapshot, and the concrete `"2.0.0"` under another). -/
theorem C10_witness :
    (cacheApi ⟨some ⟨"3.5.0", []⟩, true⟩ ⟨[], 0⟩ "latest").1
      = renderJson (webTypesToJson (webTypesData
          (if "latest" == "latest" then "3.5.0" else "latest")))
    ∧ (cacheApi ⟨some ⟨"3.6.0", ["2.0.0"]⟩, false⟩ ⟨[], 1⟩ "2.0.0").1
      = renderJson (webTypesToJson (webTypesData
          (if "2.0.0" == "latest" then "3.6.0" else "2.0.0")))
    ∧ (webTypesData (if "latest" == "latest" then "3.5.0" else "latest")).tags
        = webTypesTags
    ∧ (webTypesData (if "latest" == "latest" then "3.5.0" else "latest")).attributes
        = [rippleAttr]
    ∧ { webTypesData (if "latest" == "latest" then "3.5.0" else "latest") with
          version := (webTypesData
            (if "2.0.0" == "latest" then "3.6.0" else "2.0.0")).version }
        = webTypesData (if "2.0.0" == "latest" then "3.6.0" else "2.0.0") :=
  C10_theorem ⟨some ⟨"3.5.0", []⟩, true⟩ ⟨some ⟨"3.6.0", ["2.0.0"]⟩, false⟩
    ⟨"3.5.0", []⟩ ⟨"3.6.0", ["2.0.0"]⟩ ⟨[], 0⟩ ⟨[], 1⟩ "latest" "2.0.0" rfl rfl rfl rfl
